import Mathlib

/-!
Shallow embedding of the go-mpris adapter (src/mpris.go).

The adapter is a thin client-side binding over a message bus: every
accessor performs one bus interaction (a property get/set or a method
call) and coerces the dynamically typed reply.  We embed the bus as an
explicit input: each operation takes the outcome the bus would produce
for its single interaction and returns the Go function's result, with
Go panics (failed type assertions) modelled as an explicit outcome.

Doubles are modelled as rationals: every claim settled here evaluates
the float arithmetic only at values where IEEE-754 binary64 arithmetic
is exact, so the rational model agrees with the code there.
-/

namespace Mpris

/-- Wire values carried by a dbus.Variant, as used by this adapter:
strings, booleans, doubles, signed and unsigned 64-bit integers,
object paths, and the metadata mapping from string keys to variants. -/
inductive DBusValue where
  | str (s : String)
  | boolVal (b : Bool)
  | f64 (q : ℚ)
  | i64 (n : Int)
  | u64 (n : Nat)
  | objectPath (p : String)
  | metadataMap (m : List (String × Option DBusValue))
  deriving Repr

/-- A dbus.Variant: `none` models a variant holding no value (the zero
variant, whose Value() is nil), `some v` a variant holding wire value v. -/
abbrev Variant := Option DBusValue

/-- Go error values produced by the adapter: `bus` is an opaque error
surfaced by the underlying bus call, `errorf` an error built locally
with fmt.Errorf (the adapter distinguishes its cases by message). -/
inductive GoError where
  | bus (msg : String)
  | errorf (msg : String)
  deriving Repr, DecidableEq

/-- Result of a Go accessor returning (value, error): either the code
panics (a failed type assertion) or returns a value/error pair. -/
inductive GoOutcome (α : Type) where
  | panics (msg : String)
  | ret (val : α) (err : Option GoError)

/-- The fixed MPRIS base interface name. -/
def BaseInterface : String := "org.mpris.MediaPlayer2"

/-- The MPRIS player interface name. -/
def PlayerInterface : String := "org.mpris.MediaPlayer2.Player"

/-- strings.HasPrefix: whether `pre` is a prefix of `s`. -/
def hasStrPre (s pre : String) : Bool :=
  pre.data.isPrefixOf s.data

/-- float64(seconds * 1000000) truncated to int64: exact rational scale
followed by truncation toward zero (Go's float-to-integer conversion). -/
def convertToMicroseconds (seconds : ℚ) : Int :=
  (seconds * 1000000).num.tdiv ((seconds * 1000000).den : Int)

/-- float64(microseconds) / 1000000.0 as an exact rational. -/
def convertToSeconds (microseconds : Int) : ℚ :=
  (microseconds : ℚ) / 1000000

/-- getProperty: the property-get helper.  Given the outcome of the bus
call it returns the stored variant and the error, exactly as the Go
helper returns (dbus.Variant := zero, err) on failure and (result, nil)
on success. -/
def getProperty (call : Except GoError Variant) : Variant × Option GoError :=
  match call with
  | .error e => (none, some e)
  | .ok v => (v, none)

/-- List: the discovery function.  Given the outcome of the bus name
enumeration, it propagates the enumeration error, and otherwise keeps
exactly the names having the MPRIS base-interface prefix, in order.
(Named ListPlayers because `List` is taken in Lean.) -/
def ListPlayers (call : Except GoError (List String)) :
    Except GoError (List String) :=
  match call with
  | .error e => .error e
  | .ok names => .ok (names.filter (fun n => hasStrPre n BaseInterface))

/-- GetIdentity: returns value.Value().(string), err — with no error or
nil check before the type assertion, so a zero variant (which is what a
failed or value-less get yields) makes the assertion panic. -/
def GetIdentity (call : Except GoError Variant) : GoOutcome String :=
  let r := getProperty call
  match r.1 with
  | some (.str s) => .ret s r.2
  | _ => .panics "interface conversion: interface is nil or not string"

/-- GetVolume: error check, then nil-value check, then float64 assertion. -/
def GetVolume (call : Except GoError Variant) : GoOutcome ℚ :=
  let r := getProperty call
  match r.2 with
  | some e => .ret 0 (some e)
  | none =>
    match r.1 with
    | none => .ret 0 (some (.errorf "variant value is nil"))
    | some (.f64 x) => .ret x none
    | some _ => .panics "interface conversion: interface is not float64"

/-- GetRate: error check, then nil-value check, then float64 assertion. -/
def GetRate (call : Except GoError Variant) : GoOutcome ℚ :=
  let r := getProperty call
  match r.2 with
  | some e => .ret 0 (some e)
  | none =>
    match r.1 with
    | none => .ret 0 (some (.errorf "variant value is nil"))
    | some (.f64 x) => .ret x none
    | some _ => .panics "interface conversion: interface is not float64"

/-- GetShuffle: error check, then nil-value check, then bool assertion. -/
def GetShuffle (call : Except GoError Variant) : GoOutcome Bool :=
  let r := getProperty call
  match r.2 with
  | some e => .ret false (some e)
  | none =>
    match r.1 with
    | none => .ret false (some (.errorf "variant value is nil"))
    | some (.boolVal b) => .ret b none
    | some _ => .panics "interface conversion: interface is not bool"

/-- PlaybackStatus is a defined string type in Go; the conversion
PlaybackStatus(s) is the identity on the string content. -/
abbrev PlaybackStatus := String

def PlaybackPlaying : PlaybackStatus := "Playing"
def PlaybackPaused : PlaybackStatus := "Paused"
def PlaybackStopped : PlaybackStatus := "Stopped"

/-- GetPlaybackStatus: error check, nil-value check, then the string is
converted to PlaybackStatus verbatim (no validation of its content). -/
def GetPlaybackStatus (call : Except GoError Variant) :
    GoOutcome PlaybackStatus :=
  match call with
  | .error e => .ret "" (some e)
  | .ok none => .ret "" (some (.errorf "variant value is nil"))
  | .ok (some (.str s)) => .ret s none
  | .ok (some _) => .panics "interface conversion: interface is not string"

/-- LoopStatus is a defined string type in Go. -/
abbrev LoopStatus := String

def LoopNone : LoopStatus := "None"
def LoopTrack : LoopStatus := "Track"
def LoopPlaylist : LoopStatus := "Playlist"

/-- GetLoopStatus: error check, nil-value check, then the string is
converted to LoopStatus verbatim. -/
def GetLoopStatus (call : Except GoError Variant) : GoOutcome LoopStatus :=
  let r := getProperty call
  match r.2 with
  | some e => .ret "" (some e)
  | none =>
    match r.1 with
    | none => .ret "" (some (.errorf "variant value is nil"))
    | some (.str s) => .ret s none
    | some _ => .panics "interface conversion: interface is not string"

/-- Go map indexing on the metadata map: a missing key yields the zero
variant (whose Value() is nil), i.e. `none`. -/
def assocLookup (l : List (String × Variant)) (k : String) : Variant :=
  match l with
  | [] => none
  | (k2, v) :: rest => if k2 = k then v else assocLookup rest k

/-- Indexing through a possibly-nil Go map: indexing a nil map is legal
and yields the zero variant. -/
def mapIndex (md : Option (List (String × Variant))) (k : String) : Variant :=
  match md with
  | none => none
  | some l => assocLookup l k

/-- GetMetadata: property get of Metadata, error check, nil-value check,
then a type assertion to map[string]dbus.Variant (panics otherwise).
`none` models the nil map returned alongside an error. -/
def GetMetadata (call : Except GoError Variant) :
    GoOutcome (Option (List (String × Variant))) :=
  let r := getProperty call
  match r.2 with
  | some e => .ret none (some e)
  | none =>
    match r.1 with
    | none => .ret none (some (.errorf "variant value is nil"))
    | some (.metadataMap m) => .ret (some m) none
    | some _ => .panics "interface conversion: interface is not map"

/-- The Go %T type name of each wire value, as printed by fmt.Errorf. -/
def goTypeName : DBusValue → String
  | .str _ => "string"
  | .boolVal _ => "bool"
  | .f64 _ => "float64"
  | .i64 _ => "int64"
  | .u64 _ => "uint64"
  | .objectPath _ => "dbus.ObjectPath"
  | .metadataMap _ => "map[string]dbus.Variant"

/-- Go's uint64-to-int64 conversion: two's-complement reinterpretation. -/
def int64ofUint64 (n : Nat) : Int :=
  if n % 2 ^ 64 < 2 ^ 63 then ((n % 2 ^ 64 : Nat) : Int)
  else ((n % 2 ^ 64 : Nat) : Int) - 2 ^ 64

/-- GetLength: reads the metadata, checks for a nil map or a nil value
under the length key, then switches on the stored wire type: int64 and
uint64 (converted through int64) are turned into seconds, any other
type yields the fmt.Errorf unknown-type error. -/
def GetLength (call : Except GoError Variant) : GoOutcome ℚ :=
  match GetMetadata call with
  | .panics m => .panics m
  | .ret md err =>
    match err with
    | some e => .ret 0 (some e)
    | none =>
      match mapIndex md "mpris:length" with
      | none => .ret 0 (some (.errorf "variant value is nil"))
      | some v =>
        match v with
        | .i64 n => .ret (convertToSeconds n) none
        | .u64 n => .ret (convertToSeconds (int64ofUint64 n)) none
        | _ => .ret 0 (some (.errorf ("unknown type " ++ goTypeName v)))

/-- One emitted bus method call of the SetPosition path: the method
name, the object-path argument, and the microsecond position argument. -/
structure MethodCall where
  method : String
  trackId : String
  positionMicro : Int
  deriving Repr, DecidableEq

/-- SetTrackPosition: emits the Player.SetPosition bus method call with
the track id and the converted position, and returns the call's error
(the bus outcome is an input). -/
def SetTrackPosition (trackId : String) (position : ℚ)
    (busErr : Option GoError) : MethodCall × Option GoError :=
  ({ method := PlayerInterface ++ ".SetPosition", trackId := trackId,
     positionMicro := convertToMicroseconds position }, busErr)

/-- Result of SetPosition: either a panic, or the emitted bus method
call (if any) together with the returned error. -/
inductive SetPositionResult where
  | panics (msg : String)
  | ret (emitted : Option MethodCall) (err : Option GoError)
  deriving Repr, DecidableEq

/-- SetPosition: reads the metadata, fails on a metadata error or a nil
value under the track-id key; coerces the track id from object path or
string (any other type leaves the zero object path); then calls
SetTrackPosition, discarding its error, and returns nil. -/
def SetPosition (metadataCall : Except GoError Variant) (position : ℚ)
    (busErr : Option GoError) : SetPositionResult :=
  match GetMetadata metadataCall with
  | .panics m => .panics m
  | .ret md err =>
    match err with
    | some e => .ret none (some e)
    | none =>
      match mapIndex md "mpris:trackid" with
      | none => .ret none (some (.errorf "variant value is nil"))
      | some raw =>
        let trackId : String :=
          match raw with
          | .objectPath p => p
          | .str s => s
          | _ => ""
        let r := SetTrackPosition trackId position busErr
        .ret (some r.1) none

/-- One match option as passed to the connection's AddMatchSignal. -/
inductive MatchOption where
  | withMatchObjectPath (p : String)
  | withMatchInterface (i : String)
  | withMatchMember (m : String)
  | withMatchSender (s : String)
  deriving Repr, DecidableEq

/-- An incoming bus signal, for deciding what a match rule accepts. -/
structure BusSignal where
  sender : String
  path : String
  iface : String
  member : String
  deriving Repr, DecidableEq

/-- Whether one match option accepts a signal. -/
def optionMatches (sig : BusSignal) : MatchOption → Bool
  | .withMatchObjectPath p => sig.path = p
  | .withMatchInterface i => sig.iface = i
  | .withMatchMember m => sig.member = m
  | .withMatchSender s => sig.sender = s

/-- A registered match rule accepts a signal iff every option does
(with no options, every signal is accepted). -/
def ruleMatches (opts : List MatchOption) (sig : BusSignal) : Bool :=
  opts.all (optionMatches sig)

/-- Observable effect of OnSignal: the match options passed to
AddMatchSignal, whether the caller channel was registered, and the
returned error. -/
structure OnSignalEffect where
  matchOptions : List MatchOption
  channelRegistered : Bool
  returnedErr : Option GoError
  deriving Repr, DecidableEq

/-- OnSignal: calls conn.AddMatchSignal() with no match options, and on
success registers the caller-supplied channel; returns the
registration error. -/
def OnSignal (addMatchErr : Option GoError) : OnSignalEffect :=
  { matchOptions := []
    channelRegistered := addMatchErr.isNone
    returnedErr := addMatchErr }

/-- Modelled from the spec: a capability-check accessor for the
LoopStatus property is described in the spec but is not among the
source files under src; per the spec, absence of the property is a
supported outcome reported as false, and a present value as true. -/
def HasLoopStatus (call : Except GoError Variant) : Bool :=
  match call with
  | .error _ => false
  | .ok none => false
  | .ok (some _) => true

end Mpris

open Mpris

lemma convertToMicroseconds_eq_intCast (q : ℚ) (n : Int)
    (h : q * 1000000 = (n : ℚ)) : Mpris.convertToMicroseconds q = n := by
  unfold Mpris.convertToMicroseconds
  rw [h]
  simp

lemma convertToMicroseconds_42_5 :
    Mpris.convertToMicroseconds (42.5 : ℚ) = 42500000 :=
  convertToMicroseconds_eq_intCast _ _ (by norm_num)

lemma convertToMicroseconds_one :
    Mpris.convertToMicroseconds (1 : ℚ) = 1000000 :=
  convertToMicroseconds_eq_intCast _ _ (by norm_num)

lemma int64ofUint64_eq_of_lt (n : Nat) (h : n < 2 ^ 63) :
    Mpris.int64ofUint64 n = (n : Int) := by
  unfold Mpris.int64ofUint64
  have h64 : n % 2 ^ 64 = n := Nat.mod_eq_of_lt (by omega)
  rw [h64, if_pos h]

/-- C1: when the property-get call succeeds but the variant holds no
value, GetVolume, GetRate and GetShuffle each return the distinct
absent-value error (and no successful default), but GetIdentity,
contrary to the claim, performs an unchecked type assertion on the nil
value and panics instead of returning an error. -/
theorem C1_absent_value_accessors :
    GetVolume (.ok none) = .ret 0 (some (.errorf "variant value is nil")) ∧
    GetRate (.ok none) = .ret 0 (some (.errorf "variant value is nil")) ∧
    GetShuffle (.ok none) =
      .ret false (some (.errorf "variant value is nil")) ∧
    GetIdentity (.ok none) =
      .panics "interface conversion: interface is nil or not string" :=
  ⟨rfl, rfl, rfl, rfl⟩

/-- C2: contrary to the claim, when the metadata read succeeds and
yields a track identifier but the underlying SetPosition bus call
fails, SetPosition discards that error and returns nil (success). -/
theorem C2_setposition_discards_bus_error :
    SetPosition
      (.ok (some (.metadataMap
        [("mpris:trackid", some (.objectPath "/org/mpris/track/1"))])))
      1 (some (.bus "SetPosition call failed")) =
    .ret (some { method := "org.mpris.MediaPlayer2.Player.SetPosition",
                 trackId := "/org/mpris/track/1",
                 positionMicro := 1000000 }) none := by
  simp [Mpris.SetPosition, Mpris.GetMetadata, Mpris.getProperty,
    Mpris.mapIndex, Mpris.assocLookup, Mpris.SetTrackPosition,
    Mpris.PlayerInterface, convertToMicroseconds_one]

/-- C3: for every outcome of the bus name enumeration, List propagates
the enumeration error verbatim, and on success returns exactly the
names having the MPRIS base prefix: a name is in the result iff it was
reported and has the prefix, the result is a sublist of the reported
names (same order), and an empty result is a non-error outcome. -/
theorem C3_discovery_filter (call : Except GoError (List String)) :
    (∀ e, call = .error e → ListPlayers call = .error e) ∧
    (∀ names, call = .ok names →
      ListPlayers call =
        .ok (names.filter (fun n => hasStrPre n BaseInterface)) ∧
      (∀ n, n ∈ names.filter (fun n => hasStrPre n BaseInterface) ↔
        n ∈ names ∧ hasStrPre n BaseInterface = true) ∧
      (names.filter (fun n => hasStrPre n BaseInterface)).Sublist names) := by
  constructor
  · rintro e rfl; rfl
  · rintro names rfl
    refine ⟨rfl, ?_, List.filter_sublist _⟩
    intro n
    simp [List.mem_filter]

/-- Witness for C3 at concrete inputs: one matching and one
non-matching name, a failing enumeration, and an empty registry. -/
theorem C3_discovery_filter_witness :
    ListPlayers (.ok ["org.mpris.MediaPlayer2.vlc", "org.freedesktop.DBus"]) =
      .ok ["org.mpris.MediaPlayer2.vlc"] ∧
    ListPlayers (.error (.bus "connection lost")) =
      .error (.bus "connection lost") ∧
    ListPlayers (.ok []) = .ok [] := by
  have h1 := (C3_discovery_filter
    (.ok ["org.mpris.MediaPlayer2.vlc", "org.freedesktop.DBus"])).2 _ rfl
  have h2 := (C3_discovery_filter (.error (.bus "connection lost"))).1 _ rfl
  have h3 := (C3_discovery_filter (.ok [])).2 _ rfl
  refine ⟨?_, h2, ?_⟩
  · rw [h1.1]; rfl
  · rw [h3.1]; rfl

/-- C5: with the track-id key present (as an object path or a string),
SetPosition at 42.5 seconds emits exactly one Player.SetPosition bus
call carrying that track identifier and the integer 42500000; it fails
when the metadata read fails, and when the track-id key is absent. -/
theorem C5_setposition_end_to_end (md : List (String × Variant))
    (tid : String) (e : GoError) (busErr : Option GoError) :
    (assocLookup md "mpris:trackid" = some (.objectPath tid) →
      SetPosition (.ok (some (.metadataMap md))) (42.5 : ℚ) busErr =
        .ret (some { method := "org.mpris.MediaPlayer2.Player.SetPosition",
                     trackId := tid, positionMicro := 42500000 }) none) ∧
    (assocLookup md "mpris:trackid" = some (.str tid) →
      SetPosition (.ok (some (.metadataMap md))) (42.5 : ℚ) busErr =
        .ret (some { method := "org.mpris.MediaPlayer2.Player.SetPosition",
                     trackId := tid, positionMicro := 42500000 }) none) ∧
    (SetPosition (.error e) (42.5 : ℚ) busErr = .ret none (some e)) ∧
    (assocLookup md "mpris:trackid" = none →
      SetPosition (.ok (some (.metadataMap md))) (42.5 : ℚ) busErr =
        .ret none (some (.errorf "variant value is nil"))) := by
  refine ⟨?_, ?_, rfl, ?_⟩ <;> intro h <;>
    simp [Mpris.SetPosition, Mpris.GetMetadata, Mpris.getProperty,
      Mpris.mapIndex, h, Mpris.SetTrackPosition, Mpris.PlayerInterface,
      convertToMicroseconds_42_5]

/-- Witness for C5 at a concrete metadata map, track id and bus error. -/
theorem C5_setposition_end_to_end_witness :
    SetPosition
      (.ok (some (.metadataMap
        [("xesam:title", some (.str "song")),
         ("mpris:trackid", some (.objectPath "/org/mpris/track/7"))])))
      (42.5 : ℚ) none =
      .ret (some { method := "org.mpris.MediaPlayer2.Player.SetPosition",
                   trackId := "/org/mpris/track/7",
                   positionMicro := 42500000 }) none ∧
    SetPosition (.error (.bus "get failed")) (42.5 : ℚ) none =
      .ret none (some (.bus "get failed")) ∧
    SetPosition (.ok (some (.metadataMap [("xesam:title", some (.str "song"))])))
      (42.5 : ℚ) none = .ret none (some (.errorf "variant value is nil")) := by
  refine ⟨?_, ?_, ?_⟩
  · exact (C5_setposition_end_to_end _ "/org/mpris/track/7"
      (.bus "get failed") none).1 rfl
  · exact (C5_setposition_end_to_end [] "" (.bus "get failed") none).2.2.1
  · exact (C5_setposition_end_to_end _ "" (.bus "get failed") none).2.2.2 rfl

/-- C6: a wire string under PlaybackStatus is returned verbatim with no
error; in particular the strings Playing, Paused and Stopped map to the
matching enumerated values, and any other string passes through
unchanged rather than being rejected. -/
theorem C6_playback_status_coercion (s : String) :
    GetPlaybackStatus (.ok (some (.str s))) = .ret s none ∧
    (s = "Playing" →
      GetPlaybackStatus (.ok (some (.str s))) = .ret PlaybackPlaying none) ∧
    (s = "Paused" →
      GetPlaybackStatus (.ok (some (.str s))) = .ret PlaybackPaused none) ∧
    (s = "Stopped" →
      GetPlaybackStatus (.ok (some (.str s))) = .ret PlaybackStopped none) := by
  refine ⟨rfl, ?_, ?_, ?_⟩ <;> rintro rfl <;> rfl

/-- Witness for C6: a recognized and an unrecognized wire string. -/
theorem C6_playback_status_coercion_witness :
    GetPlaybackStatus (.ok (some (.str "Playing"))) =
      .ret PlaybackPlaying none ∧
    GetPlaybackStatus (.ok (some (.str "Buffering"))) =
      .ret "Buffering" none :=
  ⟨(C6_playback_status_coercion "Playing").2.1 rfl,
   (C6_playback_status_coercion "Buffering").1⟩

/-- C7: when the metadata length key holds a 64-bit integer of
magnitude n < 2^63, GetLength returns the same seconds value n/1000000
whether the wire integer is signed or unsigned; when it holds any
other wire type, GetLength returns the distinct unknown-type decode
error (never a panic, never success), and that error differs from the
absent-value error. -/
theorem C7_length_decoding (md : List (String × Variant)) (n : Nat)
    (v : DBusValue) :
    (n < 2 ^ 63 →
      assocLookup md "mpris:length" = some (.i64 (n : Int)) →
      GetLength (.ok (some (.metadataMap md))) = .ret ((n : ℚ) / 1000000) none) ∧
    (n < 2 ^ 63 →
      assocLookup md "mpris:length" = some (.u64 n) →
      GetLength (.ok (some (.metadataMap md))) = .ret ((n : ℚ) / 1000000) none) ∧
    ((∀ m : Int, v ≠ .i64 m) → (∀ m : Nat, v ≠ .u64 m) →
      assocLookup md "mpris:length" = some v →
      GetLength (.ok (some (.metadataMap md))) =
        .ret 0 (some (.errorf ("unknown type " ++ goTypeName v)))) ∧
    (∀ w : DBusValue,
      GoError.errorf ("unknown type " ++ goTypeName w) ≠
        GoError.errorf "variant value is nil") := by
  refine ⟨?_, ?_, ?_, ?_⟩
  · intro _ h
    simp [Mpris.GetLength, Mpris.GetMetadata, Mpris.getProperty,
      Mpris.mapIndex, h, Mpris.convertToSeconds]
  · intro hn h
    simp [Mpris.GetLength, Mpris.GetMetadata, Mpris.getProperty,
      Mpris.mapIndex, h, Mpris.convertToSeconds, int64ofUint64_eq_of_lt n hn]
  · intro hi hu h
    cases v with
    | i64 m => exact absurd rfl (hi m)
    | u64 m => exact absurd rfl (hu m)
    | str s =>
      simp [Mpris.GetLength, Mpris.GetMetadata, Mpris.getProperty,
        Mpris.mapIndex, h, Mpris.goTypeName]
    | boolVal b =>
      simp [Mpris.GetLength, Mpris.GetMetadata, Mpris.getProperty,
        Mpris.mapIndex, h, Mpris.goTypeName]
    | f64 q =>
      simp [Mpris.GetLength, Mpris.GetMetadata, Mpris.getProperty,
        Mpris.mapIndex, h, Mpris.goTypeName]
    | objectPath p =>
      simp [Mpris.GetLength, Mpris.GetMetadata, Mpris.getProperty,
        Mpris.mapIndex, h, Mpris.goTypeName]
    | metadataMap m =>
      simp [Mpris.GetLength, Mpris.GetMetadata, Mpris.getProperty,
        Mpris.mapIndex, h, Mpris.goTypeName]
  · intro w
    cases w <;> simp [Mpris.goTypeName]

/-- Witness for C7: a signed and an unsigned five-second length give
the same result, and a string-typed length gives the decode error. -/
theorem C7_length_decoding_witness :
    GetLength (.ok (some (.metadataMap
      [("mpris:length", some (.i64 ((5000000 : Nat) : Int)))]))) =
      .ret ((5000000 : Nat) / 1000000 : ℚ) none ∧
    GetLength (.ok (some (.metadataMap
      [("mpris:length", some (.u64 5000000))]))) =
      .ret ((5000000 : Nat) / 1000000 : ℚ) none ∧
    GetLength (.ok (some (.metadataMap
      [("mpris:length", some (.str "long"))]))) =
      .ret 0 (some (.errorf "unknown type string")) := by
  refine ⟨?_, ?_, ?_⟩
  · exact (C7_length_decoding _ 5000000 (.str "long")).1 (by norm_num) rfl
  · exact (C7_length_decoding _ 5000000 (.str "long")).2.1 (by norm_num) rfl
  · exact (C7_length_decoding _ 5000000 (.str "long")).2.2.1
      (fun m => by simp) (fun m => by simp) rfl

/-- C8: when the remote LoopStatus property is absent — the get call
succeeds with a value-less variant — the capability check (modelled
from the spec) reports false and GetLoopStatus returns the distinct
absent-value error, never a successful (default) enumerated value; a
failing get also yields false from the capability check and an error
from the getter. -/
theorem C8_loop_status_absent :
    HasLoopStatus (.ok none) = false ∧
    GetLoopStatus (.ok none) =
      .ret "" (some (.errorf "variant value is nil")) ∧
    (∀ s : LoopStatus, GetLoopStatus (.ok none) ≠ .ret s none) ∧
    (∀ e : GoError, HasLoopStatus (.error e) = false ∧
      GetLoopStatus (.error e) = .ret "" (some e)) := by
  refine ⟨rfl, rfl, ?_, fun e => ⟨rfl, rfl⟩⟩
  intro s h
  exact Option.noConfusion (Mpris.GoOutcome.ret.inj h).2

/-- C9 counterexample: the claim says OnSignal registers a match scoped
to the bound player's properties-changed notification and not an
unrestricted match; but OnSignal passes no match options, so the
registered rule accepts even a signal from an unrelated sender,
interface and member. -/
theorem C9_counterexample_unrestricted :
    (OnSignal none).matchOptions = [] ∧
    ruleMatches (OnSignal none).matchOptions
      { sender := "org.example.unrelated", path := "/unrelated",
        iface := "org.example.Other", member := "SomethingElse" } = true :=
  ⟨rfl, rfl⟩

/-- C9 amended: OnSignal registers an unrestricted signal match (every
signal is accepted by the registered rule), registers the
caller-supplied channel exactly when registration succeeds, and
returns an error exactly when the match registration fails. -/
theorem C9_onsignal_amended (addMatchErr : Option GoError) :
    (∀ sig : BusSignal,
      ruleMatches (OnSignal addMatchErr).matchOptions sig = true) ∧
    ((OnSignal addMatchErr).channelRegistered = true ↔ addMatchErr = none) ∧
    (OnSignal addMatchErr).returnedErr = addMatchErr := by
  refine ⟨fun sig => rfl, ?_, rfl⟩
  cases addMatchErr <;> simp [Mpris.OnSignal]

/-- C10: when the track-id key holds a non-nil value that is neither an
object path nor a string, SetPosition still emits the bus method call,
with the empty object path as the track identifier, and returns nil. -/
theorem C10_setposition_zero_trackid (md : List (String × Variant))
    (v : DBusValue) (pos : ℚ) (busErr : Option GoError) :
    assocLookup md "mpris:trackid" = some v →
    (∀ p : String, v ≠ .objectPath p) → (∀ s : String, v ≠ .str s) →
    SetPosition (.ok (some (.metadataMap md))) pos busErr =
      .ret (some { method := "org.mpris.MediaPlayer2.Player.SetPosition",
                   trackId := "",
                   positionMicro := convertToMicroseconds pos }) none := by
  intro h hp hs
  cases v with
  | objectPath p => exact absurd rfl (hp p)
  | str s => exact absurd rfl (hs s)
  | boolVal b =>
    simp [Mpris.SetPosition, Mpris.GetMetadata, Mpris.getProperty,
      Mpris.mapIndex, h, Mpris.SetTrackPosition, Mpris.PlayerInterface]
  | f64 q =>
    simp [Mpris.SetPosition, Mpris.GetMetadata, Mpris.getProperty,
      Mpris.mapIndex, h, Mpris.SetTrackPosition, Mpris.PlayerInterface]
  | i64 n =>
    simp [Mpris.SetPosition, Mpris.GetMetadata, Mpris.getProperty,
      Mpris.mapIndex, h, Mpris.SetTrackPosition, Mpris.PlayerInterface]
  | u64 n =>
    simp [Mpris.SetPosition, Mpris.GetMetadata, Mpris.getProperty,
      Mpris.mapIndex, h, Mpris.SetTrackPosition, Mpris.PlayerInterface]
  | metadataMap m =>
    simp [Mpris.SetPosition, Mpris.GetMetadata, Mpris.getProperty,
      Mpris.mapIndex, h, Mpris.SetTrackPosition, Mpris.PlayerInterface]

/-- Witness for C10: the track-id key holds an int64, the bus call
would fail, yet the call is emitted with the empty path and SetPosition
returns nil. -/
theorem C10_setposition_zero_trackid_witness :
    SetPosition (.ok (some (.metadataMap [("mpris:trackid", some (.i64 5))])))
      (1 : ℚ) (some (.bus "call failed")) =
      .ret (some { method := "org.mpris.MediaPlayer2.Player.SetPosition",
                   trackId := "", positionMicro := 1000000 }) none := by
  have h := C10_setposition_zero_trackid
    [("mpris:trackid", some (.i64 5))] (.i64 5) 1 (some (.bus "call failed"))
    rfl (fun p => by simp) (fun s => by simp)
  rw [h, convertToMicroseconds_one]
